import Mathlib

/-!
Verification of the event-driven order-fulfillment pipeline
(`async-rabbitmq` variant, with the `streaming-kafka` consumer where noted).

The central embedded function is `on_order_placed`, translated from
`src/async-rabbitmq/inventory_service/app.py`, which consumes an
OrderPlaced message, validates it, applies idempotent reservation logic
against the in-memory stock ledger, and publishes an outcome event or
routes the message to the dead-letter queue.  The HTTP front door
(`place_order` in `src/async-rabbitmq/order_service/app.py`) and the
Kafka consumer loop body (`src/streaming-kafka/inventory_consumer/app.py`)
are embedded as well.

Message payloads are JSON decoded into Python values; the fields that the
handlers inspect are modelled by `PyVal`, covering None, booleans,
integers and strings, with Python truthiness, Python `isinstance(_, int)`
(true for `bool`, which is an `int` subtype in Python) and Python `str()`
rendering made explicit.
-/

namespace CommModels

/-- A decoded Python/JSON value as inspected by the handlers:
`None`, `bool`, `int` or `str`.  (`dict.get` of an absent key yields
`pyNone`.) -/
inductive PyVal where
  | pyNone : PyVal
  | pyBool : Bool → PyVal
  | pyInt : Int → PyVal
  | pyStr : String → PyVal
deriving DecidableEq, Repr

/-- Python truthiness (`if not x`): `None`, `False`, `0` and `""` are
falsy. -/
def truthy : PyVal → Bool
  | .pyNone => false
  | .pyBool b => b
  | .pyInt n => n != 0
  | .pyStr s => s != ""

/-- Python `isinstance(x, int)`: true for `int` and for `bool`
(`bool` is a subclass of `int` in Python). -/
def isInstInt : PyVal → Bool
  | .pyInt _ => true
  | .pyBool _ => true
  | _ => false

/-- Numeric value of a `PyVal` that satisfies `isInstInt`
(`True` counts as 1, `False` as 0); other constructors are never
consulted numerically by the embedded code. -/
def pyToInt : PyVal → Int
  | .pyInt n => n
  | .pyBool b => if b then 1 else 0
  | _ => 0

/-- Python `str(x)` as used in f-string interpolation. -/
def pyRender : PyVal → String
  | .pyNone => "None"
  | .pyBool b => if b then "True" else "False"
  | .pyInt n => toString n
  | .pyStr s => s

/-- The three fields of a decoded OrderPlaced message that the handler
reads via `data.get(...)`; an absent field is `pyNone`. -/
structure OrderMsg where
  order_id : PyVal
  item : PyVal
  qty : PyVal
deriving DecidableEq, Repr

/-- An inbound delivery: either a body on which `json.loads` raises
`JSONDecodeError`, or a successfully decoded message. -/
inductive InMsg where
  | badJson : String → InMsg
  | decoded : OrderMsg → InMsg
deriving DecidableEq, Repr

/-- An outcome event published to the `order_events` exchange
(`status` is `"RESERVED"` or `"FAILED"`; the reserved event carries no
`reason` key). -/
structure OutcomeEvent where
  order_id : PyVal
  item : PyVal
  qty : PyVal
  status : String
  reason : Option String
deriving DecidableEq, Repr

/-- A message published to `dlq_queue`: either the raw undecodable body
forwarded verbatim, or the decoded fields augmented with an `error`
entry (`\x7b**data, "error": reason\x7d`). -/
inductive DLQMsg where
  | rawBody : String → DLQMsg
  | withError : OrderMsg → String → DLQMsg
deriving DecidableEq, Repr

/-- Broker side effects of handling one delivery, in program order. -/
inductive Action where
  | publishDLQ : DLQMsg → Action
  | publishOutcome : String → OutcomeEvent → Action
  | ack : Action
deriving DecidableEq, Repr

/-- The mutable state of the inventory service: the `inventory` dict
(item name to remaining quantity) and the `processed_orders` set. -/
structure EngineState where
  inventory : List (String × Int)
  processed : List PyVal
deriving DecidableEq, Repr

/-- Dict lookup on the inventory association list. -/
def lookupItem : List (String × Int) → String → Option Int
  | [], _ => none
  | (k, v) :: rest, i => if k = i then some v else lookupItem rest i

/-- Dict update `inv[i] = n` for a key already present. -/
def updateItem : List (String × Int) → String → Int → List (String × Int)
  | [], _, _ => []
  | (k, v) :: rest, i, n =>
    if k = i then (k, n) :: rest else (k, v) :: updateItem rest i n

/-- `item in inventory` / `inventory[item]`: dict keys are strings, so a
non-string `item` value is never a member. -/
def invLookup (inv : List (String × Int)) (item : PyVal) : Option Int :=
  match item with
  | .pyStr s => lookupItem inv s
  | _ => none

/-- `inventory[item] = n` (only ever reached with a string key that is
present). -/
def invUpdate (inv : List (String × Int)) (item : PyVal) (n : Int) :
    List (String × Int) :=
  match item with
  | .pyStr s => updateItem inv s n
  | _ => inv

/-- The `missing` list collected by the validation block: `order_id` and
`item` are tested with Python truthiness (`if not _`), `qty` with
`is None`, appended in the fixed order order_id, item, qty. -/
def missingFields (d : OrderMsg) : List String :=
  (if truthy d.order_id then [] else ["order_id"]) ++
  (if truthy d.item then [] else ["item"]) ++
  (if d.qty = PyVal.pyNone then ["qty"] else [])

/-- The `on_order_placed` callback of
`src/async-rabbitmq/inventory_service/app.py`: decode, validate required
fields, validate qty, idempotency check, stock check, reserve; returns
the new state and the broker actions in program order. -/
def on_order_placed (s : EngineState) (msg : InMsg) :
    EngineState × List Action :=
  match msg with
  | .badJson body =>
    (s, [.publishDLQ (.rawBody body), .ack])
  | .decoded d =>
    if missingFields d ≠ [] then
      (s, [.publishDLQ (.withError d
            ("Missing required field(s): " ++
              String.intercalate ", " (missingFields d))), .ack])
    else if ¬ isInstInt d.qty ∨ pyToInt d.qty ≤ 0 then
      (s, [.publishDLQ (.withError d
            ("Invalid qty: " ++ pyRender d.qty ++
              " (must be a positive integer)")), .ack])
    else if d.order_id ∈ s.processed then
      (s, [.ack])
    else
      match invLookup s.inventory d.item with
      | none =>
        (s, [.publishOutcome "inventory.failed"
              { order_id := d.order_id, item := d.item, qty := d.qty,
                status := "FAILED",
                reason := some ("Item \x27" ++ pyRender d.item ++
                  "\x27 not found in inventory") }, .ack])
      | some avail =>
        if avail < pyToInt d.qty then
          (s, [.publishOutcome "inventory.failed"
                { order_id := d.order_id, item := d.item, qty := d.qty,
                  status := "FAILED",
                  reason := some ("Insufficient stock for \x27" ++
                    pyRender d.item ++ "\x27: requested " ++
                    pyRender d.qty ++ ", available " ++ toString avail) },
                .ack])
        else
          ({ inventory := invUpdate s.inventory d.item (avail - pyToInt d.qty),
             processed := d.order_id :: s.processed },
           [.publishOutcome "inventory.reserved"
              { order_id := d.order_id, item := d.item, qty := d.qty,
                status := "RESERVED", reason := none }, .ack])

/-- Folding the handler over a sequence of deliveries. -/
def processAll (s : EngineState) : List InMsg → EngineState
  | [] => s
  | m :: ms => processAll (on_order_placed s m).1 ms

/-- A delivery is suppressed as a duplicate when it decodes, passes both
validation steps, and its order_id is already in `processed_orders`. -/
def isDuplicateDelivery (s : EngineState) (msg : InMsg) : Bool :=
  match msg with
  | .badJson _ => false
  | .decoded d =>
    decide (missingFields d = []) &&
    (isInstInt d.qty && decide (0 < pyToInt d.qty)) &&
    decide (d.order_id ∈ s.processed)

/-- Whether a DLQ message carries an `error` entry. -/
def hasErrorField : DLQMsg → Bool
  | .rawBody _ => false
  | .withError _ _ => true

/-- Count of OutcomeEvent publishes in an action list. -/
def outcomeCount (l : List Action) : Nat :=
  (l.filter (fun a => match a with
    | .publishOutcome _ _ => true
    | _ => false)).length

/-- All ledger quantities are non-negative. -/
def invNonneg (inv : List (String × Int)) : Bool :=
  inv.all (fun p => decide (0 ≤ p.2))

/-!
The HTTP front door: `place_order` in
`src/async-rabbitmq/order_service/app.py`.  The handler reads
`item = data.get("item")`, `qty = data.get("qty")`,
`student_id = data.get("student_id", "unknown")`, rejects with 400 when
`not item or qty is None`, and otherwise stores and publishes the order
dict with a fresh uuid4 `order_id` and status `"PLACED"`, answering 201.
The publish-failure path (500 / PUBLISH_FAILED) is a transport error and
is outside this model, which embeds the successful-publish path.
-/

/-- Body of a `POST /order` request as read via `data.get`. -/
structure OrderRequest where
  item : PyVal
  qty : PyVal
  student_id : PyVal
deriving DecidableEq, Repr

/-- The order dict created, stored and published by `place_order`. -/
structure PlacedOrder where
  order_id : String
  item : PyVal
  qty : PyVal
  student_id : PyVal
  status : String
deriving DecidableEq, Repr

/-- `place_order`, parameterised by the generated uuid4 string `oid`:
returns the HTTP status code and the published OrderPlaced payload, if
any. -/
def place_order (oid : String) (req : OrderRequest) :
    Nat × Option PlacedOrder :=
  if ¬ truthy req.item ∨ req.qty = PyVal.pyNone then
    (400, none)
  else
    (201, some { order_id := oid, item := req.item, qty := req.qty,
                 student_id := if req.student_id = PyVal.pyNone
                   then PyVal.pyStr "unknown" else req.student_id,
                 status := "PLACED" })

/-- The OrderPlaced payload as decoded by the inventory service: the
published JSON carries the string `order_id`, the original `item` and
`qty` values (plus `student_id` and `status`, which the consumer never
reads). -/
def toOrderMsg (o : PlacedOrder) : OrderMsg :=
  { order_id := .pyStr o.order_id, item := o.item, qty := o.qty }

/-!
The Kafka variant: the consumer loop body of
`src/streaming-kafka/inventory_consumer/app.py`.  One polled message is
decoded; a wrong `event_type` raises ValueError, a missing `order_id`,
`item_id` or `qty` key raises KeyError, a failing `int(event["qty"])`
raises, and an absent `item_id` key in `stock[item_id] -= qty` (reached
when `stock.get(item_id, 0) >= qty` holds with `qty <= 0`) raises
KeyError; every exception routes the raw bytes to the DLQ via `to_dlq`.
The commit happens last on every path.
-/

/-- Python `int(x)` on a decoded JSON value: succeeds on ints and bools,
parses integer strings, fails (raises) otherwise. -/
def pyIntConv : PyVal → Option Int
  | .pyInt n => some n
  | .pyBool b => some (if b then 1 else 0)
  | .pyStr s => s.toInt?
  | .pyNone => none

/-- The fields of a decoded Kafka order event: `event_type` via
`event.get` (absent gives `pyNone`), the other three via `event[...]`
(absent raises KeyError, modelled as `none`). -/
structure KEvent where
  event_type : PyVal
  order_id : Option PyVal
  item_id : Option PyVal
  qty : Option PyVal
deriving DecidableEq, Repr

/-- One polled Kafka message: the raw bytes plus either a decode failure
(with the exception text of `json.loads`) or the decoded event. -/
inductive KMsg where
  | badJson : String → String → KMsg
  | event : String → KEvent → KMsg
deriving DecidableEq, Repr

/-- An InventoryReserved / InventoryFailed event produced to the
inventory topic. -/
structure KOutcome where
  order_id : PyVal
  item_id : PyVal
  qty : Int
  status : String
  reason : Option String
deriving DecidableEq, Repr

/-- Broker side effects of one iteration of the Kafka consumer loop, in
program order. -/
inductive KAction where
  | produceOutcome : KOutcome → KAction
  | produceDLQ : String → String → KAction
  | commit : KAction
deriving DecidableEq, Repr

/-- `stock.get(item_id, 0)`. -/
def kGet (stock : List (String × Int)) (item : PyVal) : Int :=
  match invLookup stock item with
  | some v => v
  | none => 0

/-- The body of the Kafka consumer loop for one message (`raw` bytes):
decode, check `event_type`, extract fields, reserve or fail, produce the
outcome, commit; any exception produces a DLQ record from the raw bytes
and then commits. -/
def kafkaHandle (stock : List (String × Int)) (msg : KMsg) :
    List (String × Int) × List KAction :=
  match msg with
  | .badJson raw err =>
    (stock, [.produceDLQ err raw, .commit])
  | .event raw e =>
    if e.event_type ≠ PyVal.pyStr "OrderPlaced" then
      (stock, [.produceDLQ "unexpected event_type" raw, .commit])
    else
      match e.order_id with
      | none => (stock, [.produceDLQ "\x27order_id\x27" raw, .commit])
      | some oid =>
        match e.item_id with
        | none => (stock, [.produceDLQ "\x27item_id\x27" raw, .commit])
        | some iid =>
          match e.qty with
          | none => (stock, [.produceDLQ "\x27qty\x27" raw, .commit])
          | some q =>
            match pyIntConv q with
            | none =>
              (stock,
               [.produceDLQ ("invalid literal for int(): " ++ pyRender q)
                  raw, .commit])
            | some qty =>
              if kGet stock iid ≥ qty then
                match invLookup stock iid with
                | some avail =>
                  (invUpdate stock iid (avail - qty),
                   [.produceOutcome
                      { order_id := oid, item_id := iid, qty := qty,
                        status := "reserved", reason := none }, .commit])
                | none =>
                  (stock,
                   [.produceDLQ ("\x27" ++ pyRender iid ++ "\x27") raw,
                    .commit])
              else
                (stock,
                 [.produceOutcome
                    { order_id := oid, item_id := iid, qty := qty,
                      status := "failed", reason := some "out_of_stock" },
                  .commit])

/-!
Branch characterizations of `on_order_placed`, and association-list
lemmas shared by the claim theorems below.
-/

theorem lookupItem_updateItem_self (inv : List (String × Int)) (i : String)
    (n : Int) (v : Int) (h : lookupItem inv i = some v) :
    lookupItem (updateItem inv i n) i = some n := by
  induction inv with
  | nil => simp [lookupItem] at h
  | cons p rest ih =>
    obtain ⟨k, w⟩ := p
    by_cases hk : k = i
    · simp [lookupItem, updateItem, hk]
    · simp [lookupItem, updateItem, hk] at h ⊢
      exact ih h

theorem lookupItem_updateItem_other (inv : List (String × Int))
    (i j : String) (n : Int) (h : j ≠ i) :
    lookupItem (updateItem inv i n) j = lookupItem inv j := by
  induction inv with
  | nil => simp [updateItem]
  | cons p rest ih =>
    obtain ⟨k, w⟩ := p
    simp only [updateItem]
    by_cases hk : k = i
    · rw [if_pos hk]
      have hkj : ¬ (k = j) := by
        rw [hk]; exact fun e => h e.symm
      simp [lookupItem, hkj]
    · rw [if_neg hk]
      by_cases hkj : k = j
      · simp [lookupItem, hkj]
      · simp [lookupItem, hkj, ih]

theorem invNonneg_updateItem (inv : List (String × Int)) (i : String)
    (n : Int) (h : invNonneg inv = true) (hn : 0 ≤ n) :
    invNonneg (updateItem inv i n) = true := by
  induction inv with
  | nil => simp [updateItem, invNonneg]
  | cons p rest ih =>
    obtain ⟨k, w⟩ := p
    simp [invNonneg] at h
    by_cases hk : k = i
    · simp [updateItem, invNonneg, hk, hn]
      intro a b hab
      exact h.2 a b hab
    · have := ih (by simp [invNonneg]; intro a b hab; exact h.2 a b hab)
      simp [updateItem, invNonneg, hk, h.1]
      intro a b hab
      simp [invNonneg] at this
      exact this a b hab

theorem invNonneg_lookup (inv : List (String × Int)) (i : String) (q : Int)
    (h : invNonneg inv = true) (hl : lookupItem inv i = some q) : 0 ≤ q := by
  induction inv with
  | nil => simp [lookupItem] at hl
  | cons p rest ih =>
    obtain ⟨k, w⟩ := p
    simp [invNonneg] at h
    by_cases hk : k = i
    · simp [lookupItem, hk] at hl
      omega
    · simp [lookupItem, hk] at hl
      exact ih (by simp [invNonneg]; intro a b hab; exact h.2 a b hab) hl

theorem on_order_placed_badJson (s : EngineState) (body : String) :
    on_order_placed s (.badJson body) =
      (s, [.publishDLQ (.rawBody body), .ack]) := rfl

theorem on_order_placed_missing (s : EngineState) (d : OrderMsg)
    (h : missingFields d ≠ []) :
    on_order_placed s (.decoded d) =
      (s, [.publishDLQ (.withError d
            ("Missing required field(s): " ++
              String.intercalate ", " (missingFields d))), .ack]) := by
  simp only [on_order_placed]
  rw [if_pos h]

theorem on_order_placed_badqty (s : EngineState) (d : OrderMsg)
    (h0 : missingFields d = [])
    (h : ¬ isInstInt d.qty ∨ pyToInt d.qty ≤ 0) :
    on_order_placed s (.decoded d) =
      (s, [.publishDLQ (.withError d
            ("Invalid qty: " ++ pyRender d.qty ++
              " (must be a positive integer)")), .ack]) := by
  simp only [on_order_placed]
  rw [if_neg (by simp [h0]), if_pos h]

theorem on_order_placed_dup (s : EngineState) (d : OrderMsg)
    (h0 : missingFields d = []) (hq : isInstInt d.qty = true)
    (hpos : 0 < pyToInt d.qty) (hdup : d.order_id ∈ s.processed) :
    on_order_placed s (.decoded d) = (s, [.ack]) := by
  simp only [on_order_placed]
  rw [if_neg (by simp [h0]), if_neg (by simp [hq]; omega), if_pos hdup]

theorem on_order_placed_unknown (s : EngineState) (d : OrderMsg)
    (h0 : missingFields d = []) (hq : isInstInt d.qty = true)
    (hpos : 0 < pyToInt d.qty) (hnin : d.order_id ∉ s.processed)
    (hitem : invLookup s.inventory d.item = none) :
    on_order_placed s (.decoded d) =
      (s, [.publishOutcome "inventory.failed"
            { order_id := d.order_id, item := d.item, qty := d.qty,
              status := "FAILED",
              reason := some ("Item \x27" ++ pyRender d.item ++
                "\x27 not found in inventory") }, .ack]) := by
  simp only [on_order_placed]
  rw [if_neg (by simp [h0]), if_neg (by simp [hq]; omega), if_neg hnin,
    hitem]

theorem on_order_placed_insufficient (s : EngineState) (d : OrderMsg)
    (avail : Int)
    (h0 : missingFields d = []) (hq : isInstInt d.qty = true)
    (hpos : 0 < pyToInt d.qty) (hnin : d.order_id ∉ s.processed)
    (hitem : invLookup s.inventory d.item = some avail)
    (hlt : avail < pyToInt d.qty) :
    on_order_placed s (.decoded d) =
      (s, [.publishOutcome "inventory.failed"
            { order_id := d.order_id, item := d.item, qty := d.qty,
              status := "FAILED",
              reason := some ("Insufficient stock for \x27" ++
                pyRender d.item ++ "\x27: requested " ++ pyRender d.qty ++
                ", available " ++ toString avail) }, .ack]) := by
  simp only [on_order_placed]
  rw [if_neg (by simp [h0]), if_neg (by simp [hq]; omega), if_neg hnin,
    hitem]
  simp [hlt]

theorem on_order_placed_reserve (s : EngineState) (d : OrderMsg)
    (avail : Int)
    (h0 : missingFields d = []) (hq : isInstInt d.qty = true)
    (hpos : 0 < pyToInt d.qty) (hnin : d.order_id ∉ s.processed)
    (hitem : invLookup s.inventory d.item = some avail)
    (hle : pyToInt d.qty ≤ avail) :
    on_order_placed s (.decoded d) =
      ({ inventory := invUpdate s.inventory d.item (avail - pyToInt d.qty),
         processed := d.order_id :: s.processed },
       [.publishOutcome "inventory.reserved"
          { order_id := d.order_id, item := d.item, qty := d.qty,
            status := "RESERVED", reason := none }, .ack]) := by
  simp only [on_order_placed]
  rw [if_neg (by simp [h0]), if_neg (by simp [hq]; omega), if_neg hnin,
    hitem]
  simp [not_lt.mpr hle]

/-- Exhaustive description of the state transition: either the state is
untouched, or the delivery was a well-formed, non-duplicate order for an
item in stock with sufficient quantity, and exactly that reservation was
applied. -/
theorem on_order_placed_state_cases (s : EngineState) (msg : InMsg) :
    (on_order_placed s msg).1 = s ∨
    ∃ d avail, msg = InMsg.decoded d ∧ missingFields d = [] ∧
      isInstInt d.qty = true ∧ 0 < pyToInt d.qty ∧
      d.order_id ∉ s.processed ∧
      invLookup s.inventory d.item = some avail ∧
      pyToInt d.qty ≤ avail ∧
      (on_order_placed s msg).1 =
        { inventory := invUpdate s.inventory d.item
            (avail - pyToInt d.qty),
          processed := d.order_id :: s.processed } := by
  cases msg with
  | badJson body => left; rfl
  | decoded d =>
    by_cases h0 : missingFields d ≠ []
    · left; rw [on_order_placed_missing s d h0]
    · push_neg at h0
      by_cases hq : ¬ isInstInt d.qty ∨ pyToInt d.qty ≤ 0
      · left; rw [on_order_placed_badqty s d h0 hq]
      · push_neg at hq
        obtain ⟨hq1, hq2⟩ := hq
        have hq1' : isInstInt d.qty = true := by
          revert hq1; cases isInstInt d.qty <;> simp
        by_cases hdup : d.order_id ∈ s.processed
        · left; rw [on_order_placed_dup s d h0 hq1' hq2 hdup]
        · cases hitem : invLookup s.inventory d.item with
          | none => left; rw [on_order_placed_unknown s d h0 hq1' hq2 hdup hitem]
          | some avail =>
            by_cases hlt : avail < pyToInt d.qty
            · left
              rw [on_order_placed_insufficient s d avail h0 hq1' hq2 hdup
                hitem hlt]
            · right
              rw [not_lt] at hlt
              refine ⟨d, avail, rfl, h0, hq1', hq2, hdup, hitem, hlt, ?_⟩
              rw [on_order_placed_reserve s d avail h0 hq1' hq2 hdup hitem
                hlt]

/-- The item whose ledger entry an inbound delivery names (the string
`item` field of a decoded message). -/
def namedItem : InMsg → Option String
  | .badJson _ => none
  | .decoded d =>
    match d.item with
    | .pyStr s => some s
    | _ => none

/-- The item a Kafka message names (the string `item_id` field). -/
def kNamedItem : KMsg → Option String
  | .badJson _ _ => none
  | .event _ e =>
    match e.item_id with
    | some (.pyStr s) => some s
    | _ => none

theorem invLookup_some_str (inv : List (String × Int)) (it : PyVal)
    (v : Int) (h : invLookup inv it = some v) :
    ∃ k, it = PyVal.pyStr k ∧ lookupItem inv k = some v := by
  cases it <;> simp [invLookup] at h
  exact ⟨_, rfl, h⟩

/-- Exhaustive description of the Kafka stock transition: either the
stock is untouched, or the message was a well-formed OrderPlaced for an
item in stock with sufficient quantity and exactly that reservation was
applied. -/
theorem kafkaHandle_state_cases (stock : List (String × Int)) (msg : KMsg) :
    (kafkaHandle stock msg).1 = stock ∨
    ∃ raw e oid iid q qty avail, msg = KMsg.event raw e ∧
      e.order_id = some oid ∧ e.item_id = some iid ∧ e.qty = some q ∧
      pyIntConv q = some qty ∧ invLookup stock iid = some avail ∧
      qty ≤ avail ∧
      (kafkaHandle stock msg).1 = invUpdate stock iid (avail - qty) := by
  cases msg with
  | badJson raw err => left; rfl
  | event raw e =>
    obtain ⟨et, oidf, iidf, qf⟩ := e
    by_cases ht : et ≠ PyVal.pyStr "OrderPlaced"
    · left; simp [kafkaHandle, ht]
    · have hteq : et = PyVal.pyStr "OrderPlaced" := not_ne_iff.mp ht
      subst hteq
      cases oidf with
      | none => left; simp [kafkaHandle]
      | some oid =>
        cases iidf with
        | none => left; simp [kafkaHandle]
        | some iid =>
          cases qf with
          | none => left; simp [kafkaHandle]
          | some q =>
            cases hconv : pyIntConv q with
            | none => left; simp [kafkaHandle, hconv]
            | some qty =>
              by_cases hge : kGet stock iid ≥ qty
              · cases hl : invLookup stock iid with
                | none => left; simp [kafkaHandle, hconv, hge, hl]
                | some avail =>
                  right
                  refine ⟨raw, _, oid, iid, q, qty, avail, rfl, rfl, rfl,
                    rfl, hconv, hl, ?_, ?_⟩
                  · simpa [kGet, hl] using hge
                  · simp [kafkaHandle, hconv, hge, hl]
              · left; simp [kafkaHandle, hconv, hge]

/-- Shape of the broker actions of one RabbitMQ delivery: some publishes
followed by exactly one ack, the publish list being empty only on the
duplicate-suppression path. -/
theorem on_order_placed_actions_shape (s : EngineState) (msg : InMsg) :
    ∃ pre, (on_order_placed s msg).2 = pre ++ [Action.ack] ∧
      Action.ack ∉ pre ∧
      (pre = [] → isDuplicateDelivery s msg = true) := by
  cases msg with
  | badJson body =>
    exact ⟨[.publishDLQ (.rawBody body)], rfl, by simp, by simp⟩
  | decoded d =>
    by_cases h0 : missingFields d ≠ []
    · rw [on_order_placed_missing s d h0]
      exact ⟨[_], rfl, by simp, by simp⟩
    · push_neg at h0
      by_cases hq : ¬ isInstInt d.qty ∨ pyToInt d.qty ≤ 0
      · rw [on_order_placed_badqty s d h0 hq]
        exact ⟨[_], rfl, by simp, by simp⟩
      · push_neg at hq
        obtain ⟨hq1, hq2⟩ := hq
        have hq1' : isInstInt d.qty = true := by
          revert hq1; cases isInstInt d.qty <;> simp
        by_cases hdup : d.order_id ∈ s.processed
        · rw [on_order_placed_dup s d h0 hq1' hq2 hdup]
          refine ⟨[], rfl, by simp, fun _ => ?_⟩
          simp [isDuplicateDelivery, h0, hq1', hq2, hdup]
        · cases hitem : invLookup s.inventory d.item with
          | none =>
            rw [on_order_placed_unknown s d h0 hq1' hq2 hdup hitem]
            exact ⟨[_], rfl, by simp, by simp⟩
          | some avail =>
            by_cases hlt : avail < pyToInt d.qty
            · rw [on_order_placed_insufficient s d avail h0 hq1' hq2 hdup
                hitem hlt]
              exact ⟨[_], rfl, by simp, by simp⟩
            · rw [not_lt] at hlt
              rw [on_order_placed_reserve s d avail h0 hq1' hq2 hdup hitem
                hlt]
              exact ⟨[_], rfl, by simp, by simp⟩

/-- Shape of the broker actions of one Kafka loop iteration: exactly one
produce (outcome or DLQ) followed by exactly one commit. -/
theorem kafkaHandle_actions_shape (stock : List (String × Int))
    (msg : KMsg) :
    ∃ x, (kafkaHandle stock msg).2 = [x, KAction.commit] ∧
      x ≠ KAction.commit := by
  cases msg with
  | badJson raw err => exact ⟨_, rfl, by simp⟩
  | event raw e =>
    obtain ⟨et, oidf, iidf, qf⟩ := e
    by_cases ht : et ≠ PyVal.pyStr "OrderPlaced"
    · exact ⟨.produceDLQ "unexpected event_type" raw,
        by simp [kafkaHandle, ht], by simp⟩
    · have hteq : et = PyVal.pyStr "OrderPlaced" := not_ne_iff.mp ht
      subst hteq
      cases oidf with
      | none =>
        exact ⟨.produceDLQ "\x27order_id\x27" raw,
          by simp [kafkaHandle], by simp⟩
      | some oid =>
        cases iidf with
        | none =>
          exact ⟨.produceDLQ "\x27item_id\x27" raw,
            by simp [kafkaHandle], by simp⟩
        | some iid =>
          cases qf with
          | none =>
            exact ⟨.produceDLQ "\x27qty\x27" raw,
              by simp [kafkaHandle], by simp⟩
          | some q =>
            cases hconv : pyIntConv q with
            | none =>
              exact ⟨.produceDLQ
                  ("invalid literal for int(): " ++ pyRender q) raw,
                by simp [kafkaHandle, hconv], by simp⟩
            | some qty =>
              by_cases hge : kGet stock iid ≥ qty
              · cases hl : invLookup stock iid with
                | none =>
                  exact ⟨.produceDLQ ("\x27" ++ pyRender iid ++ "\x27") raw,
                    by simp [kafkaHandle, hconv, hge, hl], by simp⟩
                | some avail =>
                  exact ⟨.produceOutcome
                      { order_id := oid, item_id := iid, qty := qty,
                        status := "reserved", reason := none },
                    by simp [kafkaHandle, hconv, hge, hl], by simp⟩
              · exact ⟨.produceOutcome
                    { order_id := oid, item_id := iid, qty := qty,
                      status := "failed", reason := some "out_of_stock" },
                  by simp [kafkaHandle, hconv, hge], by simp⟩

/-!
Claim theorems.
-/

/-- C2: for every decoded event in which one or more of order_id
(non-empty), item (non-empty), qty (present) are missing, the event is
dead-lettered exactly once with error text "Missing required field(s): "
followed by the missing field names comma-joined in the fixed order
order_id, item, qty, and this missing-field check takes precedence over
the qty-positivity check (the result is exactly one DLQ publish of the
combined message, then the ack — no Invalid-qty dead-letter occurs). -/
theorem missing_fields_combined_dlq (s : EngineState) (d : OrderMsg)
    (h : truthy d.order_id = false ∨ truthy d.item = false ∨
      d.qty = PyVal.pyNone) :
    on_order_placed s (.decoded d) =
      (s, [.publishDLQ (.withError d
            ("Missing required field(s): " ++
              String.intercalate ", " (missingFields d))), .ack]) ∧
    missingFields d ≠ [] ∧
    List.Sublist (missingFields d) ["order_id", "item", "qty"] := by
  have hne : missingFields d ≠ [] := by
    rcases h with h1 | h1 | h1
    · exact List.ne_nil_of_mem
        (show "order_id" ∈ missingFields d by simp [missingFields, h1])
    · exact List.ne_nil_of_mem
        (show "item" ∈ missingFields d by simp [missingFields, h1])
    · exact List.ne_nil_of_mem
        (show "qty" ∈ missingFields d by simp [missingFields, h1])
  refine ⟨on_order_placed_missing s d hne, hne, ?_⟩
  unfold missingFields
  cases h1 : truthy d.order_id <;> cases h2 : truthy d.item <;>
    by_cases h3 : d.qty = PyVal.pyNone <;> simp [h3]

/-- C2 witness: an event with order_id present but item and qty missing
is dead-lettered once with the combined error
"Missing required field(s): item, qty". -/
theorem missing_fields_combined_dlq_witness :
    (truthy (PyVal.pyStr "o9") = false ∨ truthy PyVal.pyNone = false ∨
      (PyVal.pyNone : PyVal) = PyVal.pyNone) ∧
    on_order_placed ⟨[("burger", 100)], []⟩
        (.decoded ⟨.pyStr "o9", .pyNone, .pyNone⟩) =
      (⟨[("burger", 100)], []⟩,
       [.publishDLQ (.withError ⟨.pyStr "o9", .pyNone, .pyNone⟩
          "Missing required field(s): item, qty"), .ack]) :=
  ⟨Or.inr (Or.inl rfl),
   ((missing_fields_combined_dlq ⟨[("burger", 100)], []⟩
      ⟨.pyStr "o9", .pyNone, .pyNone⟩
      (Or.inr (Or.inl rfl))).1).trans (by decide)⟩

/-- C7: a well-formed, non-duplicate order for an item that is in the
ledger with stock strictly below the requested qty yields exactly one
FAILED publish with reason
"Insufficient stock for \x27<item>\x27: requested <qty>, available <available>"
(with <available> the ledger quantity at decision time) and then the ack,
and the state — ledger included — is left unchanged. -/
theorem insufficient_stock_outcome (s : EngineState) (d : OrderMsg)
    (avail : Int)
    (h0 : missingFields d = []) (hq : isInstInt d.qty = true)
    (hpos : 0 < pyToInt d.qty) (hnin : d.order_id ∉ s.processed)
    (hitem : invLookup s.inventory d.item = some avail)
    (hlt : avail < pyToInt d.qty) :
    (on_order_placed s (.decoded d)).1 = s ∧
    (on_order_placed s (.decoded d)).2 =
      [.publishOutcome "inventory.failed"
        { order_id := d.order_id, item := d.item, qty := d.qty,
          status := "FAILED",
          reason := some ("Insufficient stock for \x27" ++
            pyRender d.item ++ "\x27: requested " ++ pyRender d.qty ++
            ", available " ++ toString avail) }, .ack] := by
  rw [on_order_placed_insufficient s d avail h0 hq hpos hnin hitem hlt]
  exact ⟨rfl, rfl⟩

/-- C7 witness: with burger stock 0, order o2 for qty 1 fails with
reason "Insufficient stock for \x27burger\x27: requested 1, available 0"
and the ledger stays at 0. -/
theorem insufficient_stock_outcome_witness :
    (missingFields ⟨.pyStr "o2", .pyStr "burger", .pyInt 1⟩ = [] ∧
     isInstInt (PyVal.pyInt 1) = true ∧ 0 < pyToInt (PyVal.pyInt 1) ∧
     PyVal.pyStr "o2" ∉ ([] : List PyVal) ∧
     invLookup [("burger", 0)] (PyVal.pyStr "burger") = some 0 ∧
     (0 : Int) < pyToInt (PyVal.pyInt 1)) ∧
    ((on_order_placed ⟨[("burger", 0)], []⟩
        (.decoded ⟨.pyStr "o2", .pyStr "burger", .pyInt 1⟩)).1 =
      ⟨[("burger", 0)], []⟩ ∧
     (on_order_placed ⟨[("burger", 0)], []⟩
        (.decoded ⟨.pyStr "o2", .pyStr "burger", .pyInt 1⟩)).2 =
      [.publishOutcome "inventory.failed"
        { order_id := .pyStr "o2", item := .pyStr "burger",
          qty := .pyInt 1, status := "FAILED",
          reason := some
            "Insufficient stock for \x27burger\x27: requested 1, available 0" },
       .ack]) :=
  ⟨by decide,
   by
    have h := insufficient_stock_outcome ⟨[("burger", 0)], []⟩
      ⟨.pyStr "o2", .pyStr "burger", .pyInt 1⟩ 0
      (by decide) (by decide) (by decide) (by decide) (by decide)
      (by decide)
    exact ⟨h.1, h.2.trans (by decide)⟩⟩

/-- C5: a well-formed, non-duplicate OrderEvent whose item is not in the
ledger, or whose requested qty exceeds available stock, results in
exactly one FAILED OutcomeEvent publish, an unchanged state (so the
order_id is not added to ProcessedSet), and is not suppressed as a
duplicate; since the state is unchanged, a later delivery with the same
order_id is processed against the same state rather than suppressed. -/
theorem business_rejection_not_processed (s : EngineState) (d : OrderMsg)
    (h0 : missingFields d = []) (hq : isInstInt d.qty = true)
    (hpos : 0 < pyToInt d.qty) (hnin : d.order_id ∉ s.processed)
    (hrej : invLookup s.inventory d.item = none ∨
      ∃ avail, invLookup s.inventory d.item = some avail ∧
        avail < pyToInt d.qty) :
    (on_order_placed s (.decoded d)).1 = s ∧
    (∃ ev, (on_order_placed s (.decoded d)).2 =
        [.publishOutcome "inventory.failed" ev, .ack] ∧
      ev.status = "FAILED") ∧
    d.order_id ∉ ((on_order_placed s (.decoded d)).1).processed ∧
    (on_order_placed s (.decoded d)).2 ≠ [Action.ack] := by
  rcases hrej with hnone | ⟨avail, hsome, hlt⟩
  · rw [on_order_placed_unknown s d h0 hq hpos hnin hnone]
    exact ⟨rfl, ⟨_, rfl, rfl⟩, hnin, by simp⟩
  · rw [on_order_placed_insufficient s d avail h0 hq hpos hnin hsome hlt]
    exact ⟨rfl, ⟨_, rfl, rfl⟩, hnin, by simp⟩

/-- C5 witness: order o3 for the unknown item fries against the initial
burger ledger fails, leaves the state unchanged and does not enter
ProcessedSet. -/
theorem business_rejection_not_processed_witness :
    (missingFields ⟨.pyStr "o3", .pyStr "fries", .pyInt 1⟩ = [] ∧
     isInstInt (PyVal.pyInt 1) = true ∧ 0 < pyToInt (PyVal.pyInt 1) ∧
     PyVal.pyStr "o3" ∉ ([] : List PyVal) ∧
     invLookup [("burger", 2)] (PyVal.pyStr "fries") = none) ∧
    ((on_order_placed ⟨[("burger", 2)], []⟩
        (.decoded ⟨.pyStr "o3", .pyStr "fries", .pyInt 1⟩)).1 =
      ⟨[("burger", 2)], []⟩ ∧
     (∃ ev, (on_order_placed ⟨[("burger", 2)], []⟩
          (.decoded ⟨.pyStr "o3", .pyStr "fries", .pyInt 1⟩)).2 =
        [.publishOutcome "inventory.failed" ev, .ack] ∧
       ev.status = "FAILED")) :=
  ⟨by decide,
   by
    have h := business_rejection_not_processed ⟨[("burger", 2)], []⟩
      ⟨.pyStr "o3", .pyStr "fries", .pyInt 1⟩
      (by decide) (by decide) (by decide) (by decide) (Or.inl (by decide))
    exact ⟨h.1, h.2.1⟩⟩

/-- C6: any input whose processing publishes to the dead-letter queue
leaves the engine state — StockLedger and ProcessedSet — completely
unchanged, so a corrected resubmission with the same order_id is
processed against the same state. -/
theorem dead_letter_non_pollution (s : EngineState) (msg : InMsg)
    (h : ∃ dm, Action.publishDLQ dm ∈ (on_order_placed s msg).2) :
    (on_order_placed s msg).1 = s := by
  rcases on_order_placed_state_cases s msg with heq |
    ⟨d, avail, hm, h0, hq, hpos, hnin, hitem, hle, heq⟩
  · exact heq
  · obtain ⟨dm, hdm⟩ := h
    subst hm
    rw [on_order_placed_reserve s d avail h0 hq hpos hnin hitem hle] at hdm
    simp at hdm

/-- C6 witness: an undecodable body is dead-lettered and the state is
unchanged. -/
theorem dead_letter_non_pollution_witness :
    (∃ dm, Action.publishDLQ dm ∈
      (on_order_placed ⟨[("burger", 2)], [PyVal.pyStr "o1"]⟩
        (.badJson "oops")).2) ∧
    (on_order_placed ⟨[("burger", 2)], [PyVal.pyStr "o1"]⟩
      (.badJson "oops")).1 = ⟨[("burger", 2)], [PyVal.pyStr "o1"]⟩ :=
  ⟨⟨.rawBody "oops", by decide⟩,
   dead_letter_non_pollution ⟨[("burger", 2)], [PyVal.pyStr "o1"]⟩
     (.badJson "oops") ⟨.rawBody "oops", by decide⟩⟩

/-- C4 counterexample: a body that fails JSON decoding is routed to the
dead-letter queue as the raw bytes alone, with no error field — so the
claim that every dead-lettered message is augmented with the failure
reason in an error field is false for decode failures. -/
theorem dlq_envelope_counterexample :
    on_order_placed ⟨[("burger", 100)], []⟩ (.badJson "\x7bnot json") =
      (⟨[("burger", 100)], []⟩,
       [.publishDLQ (.rawBody "\x7bnot json"), .ack]) ∧
    hasErrorField (.rawBody "\x7bnot json") = false :=
  ⟨rfl, rfl⟩

/-- C4 amended: a message that fails validation is dead-lettered exactly
once, augmented with the failure reason in an error field alongside the
decoded fields; a message that fails decoding is dead-lettered exactly
once as the original raw bytes, preserved verbatim but without an error
field. -/
theorem dlq_envelope_amended :
    (∀ (s : EngineState) (body : String),
       on_order_placed s (.badJson body) =
         (s, [.publishDLQ (.rawBody body), .ack])) ∧
    (∀ (s : EngineState) (d : OrderMsg),
       missingFields d ≠ [] ∨ (¬ isInstInt d.qty ∨ pyToInt d.qty ≤ 0) →
       ∃ r, (on_order_placed s (.decoded d)).2 =
           [.publishDLQ (.withError d r), .ack] ∧
         hasErrorField (.withError d r) = true) := by
  constructor
  · intro s body; rfl
  · intro s d h
    by_cases h0 : missingFields d ≠ []
    · rw [on_order_placed_missing s d h0]
      exact ⟨_, rfl, rfl⟩
    · push_neg at h0
      rcases h with h | h
      · exact absurd h0 h
      · rw [on_order_placed_badqty s d h0 h]
        exact ⟨_, rfl, rfl⟩

/-- C4 amended witness: a decode failure forwards the raw bytes; an
event with qty 0 is dead-lettered with an error field. -/
theorem dlq_envelope_amended_witness :
    on_order_placed ⟨[("burger", 100)], []⟩ (.badJson "\x7bnot json") =
      (⟨[("burger", 100)], []⟩,
       [.publishDLQ (.rawBody "\x7bnot json"), .ack]) ∧
    (∃ r, (on_order_placed ⟨[("burger", 100)], []⟩
        (.decoded ⟨.pyStr "o4", .pyStr "burger", .pyInt 0⟩)).2 =
        [.publishDLQ
          (.withError ⟨.pyStr "o4", .pyStr "burger", .pyInt 0⟩ r), .ack] ∧
      hasErrorField
        (.withError ⟨.pyStr "o4", .pyStr "burger", .pyInt 0⟩ r) = true) :=
  ⟨dlq_envelope_amended.1 ⟨[("burger", 100)], []⟩ "\x7bnot json",
   dlq_envelope_amended.2 ⟨[("burger", 100)], []⟩
     ⟨.pyStr "o4", .pyStr "burger", .pyInt 0⟩ (Or.inr (by decide))⟩

/-- C1 counterexample: the OrderEvent (o1, fries, qty 1) is valid (all
fields present, qty a positive integer), yet delivering it twice with an
identical payload to an engine whose ledger is `\x7bburger: 2\x7d`
produces two OutcomeEvent publishes in total, not exactly one: the
FAILED business rejection does not enter ProcessedSet, so the second
delivery is not suppressed. -/
theorem idempotency_counterexample :
    (missingFields ⟨.pyStr "o1", .pyStr "fries", .pyInt 1⟩ = [] ∧
     isInstInt (PyVal.pyInt 1) = true ∧ 0 < pyToInt (PyVal.pyInt 1)) ∧
    outcomeCount
      ((on_order_placed ⟨[("burger", 2)], []⟩
          (.decoded ⟨.pyStr "o1", .pyStr "fries", .pyInt 1⟩)).2 ++
       (on_order_placed
          (on_order_placed ⟨[("burger", 2)], []⟩
            (.decoded ⟨.pyStr "o1", .pyStr "fries", .pyInt 1⟩)).1
          (.decoded ⟨.pyStr "o1", .pyStr "fries", .pyInt 1⟩)).2) = 2 := by
  decide

/-- C1 amended: for every order_id whose valid OrderEvent is delivered
twice with an identical payload whose first delivery yields a successful
reservation, exactly one ledger mutation and exactly one OutcomeEvent
publish occur in total; the second delivery is acknowledged with no side
effect on StockLedger or ProcessedSet and emits no OutcomeEvent. -/
theorem idempotent_reservation (s : EngineState) (d : OrderMsg)
    (avail : Int)
    (h0 : missingFields d = []) (hq : isInstInt d.qty = true)
    (hpos : 0 < pyToInt d.qty) (hnin : d.order_id ∉ s.processed)
    (hitem : invLookup s.inventory d.item = some avail)
    (hle : pyToInt d.qty ≤ avail) :
    outcomeCount ((on_order_placed s (.decoded d)).2 ++
      (on_order_placed (on_order_placed s (.decoded d)).1
        (.decoded d)).2) = 1 ∧
    (on_order_placed s (.decoded d)).1.inventory =
      invUpdate s.inventory d.item (avail - pyToInt d.qty) ∧
    (on_order_placed s (.decoded d)).1.processed =
      d.order_id :: s.processed ∧
    on_order_placed (on_order_placed s (.decoded d)).1 (.decoded d) =
      ((on_order_placed s (.decoded d)).1, [Action.ack]) := by
  have h1 := on_order_placed_reserve s d avail h0 hq hpos hnin hitem hle
  have hdup : d.order_id ∈
      (on_order_placed s (.decoded d)).1.processed := by
    rw [h1]; exact List.mem_cons_self _ _
  have h2 := on_order_placed_dup (on_order_placed s (.decoded d)).1 d
    h0 hq hpos hdup
  refine ⟨?_, by rw [h1], by rw [h1], h2⟩
  rw [h2, h1]
  simp [outcomeCount]

/-- C1 amended witness: the spec scenario — stock `\x7bburger: 2\x7d`,
order o1 for 2 burgers delivered twice: one publish in total, ledger
decremented once to 0, and the second delivery only acks. -/
theorem idempotent_reservation_witness :
    (missingFields ⟨.pyStr "o1", .pyStr "burger", .pyInt 2⟩ = [] ∧
     isInstInt (PyVal.pyInt 2) = true ∧ 0 < pyToInt (PyVal.pyInt 2) ∧
     PyVal.pyStr "o1" ∉ ([] : List PyVal) ∧
     invLookup [("burger", 2)] (PyVal.pyStr "burger") = some 2 ∧
     pyToInt (PyVal.pyInt 2) ≤ 2) ∧
    (outcomeCount ((on_order_placed ⟨[("burger", 2)], []⟩
        (.decoded ⟨.pyStr "o1", .pyStr "burger", .pyInt 2⟩)).2 ++
      (on_order_placed
        (on_order_placed ⟨[("burger", 2)], []⟩
          (.decoded ⟨.pyStr "o1", .pyStr "burger", .pyInt 2⟩)).1
        (.decoded ⟨.pyStr "o1", .pyStr "burger", .pyInt 2⟩)).2) = 1 ∧
     (on_order_placed ⟨[("burger", 2)], []⟩
        (.decoded ⟨.pyStr "o1", .pyStr "burger", .pyInt 2⟩)).1.inventory =
      [("burger", 0)]) :=
  ⟨by decide,
   by
    have h := idempotent_reservation ⟨[("burger", 2)], []⟩
      ⟨.pyStr "o1", .pyStr "burger", .pyInt 2⟩ 2
      (by decide) (by decide) (by decide) (by decide) (by decide)
      (by decide)
    exact ⟨h.1, h.2.1.trans (by decide)⟩⟩

theorem invNonneg_step (s : EngineState) (m : InMsg)
    (h : invNonneg s.inventory = true) :
    invNonneg ((on_order_placed s m).1.inventory) = true := by
  rcases on_order_placed_state_cases s m with heq |
    ⟨d, avail, hm, h0, hq, hpos, hnin, hitem, hle, heq⟩
  · rw [heq]; exact h
  · rw [heq]
    obtain ⟨k, hk, hlk⟩ := invLookup_some_str _ _ _ hitem
    rw [hk]
    simp only [invUpdate]
    exact invNonneg_updateItem _ _ _ h (by omega)

/-- C3: starting from a ledger with all quantities ≥ 0, after every
sequence of processed deliveries (valid or not) all quantities remain
≥ 0; and a single delivery changes a ledger entry only when it is a
decoded event naming that item with a positive integer qty not exceeding
the available stock, in which case the entry becomes available − qty. -/
theorem ledger_nonnegativity (s : EngineState) (msgs : List InMsg)
    (h : invNonneg s.inventory = true) :
    invNonneg ((processAll s msgs).inventory) = true ∧
    (∀ i q, lookupItem ((processAll s msgs).inventory) i = some q →
      0 ≤ q) ∧
    (∀ (s0 : EngineState) (m : InMsg) (i : String),
       lookupItem ((on_order_placed s0 m).1.inventory) i ≠
         lookupItem s0.inventory i →
       ∃ d avail, m = InMsg.decoded d ∧ d.item = PyVal.pyStr i ∧
         isInstInt d.qty = true ∧ 0 < pyToInt d.qty ∧
         lookupItem s0.inventory i = some avail ∧
         pyToInt d.qty ≤ avail ∧
         lookupItem ((on_order_placed s0 m).1.inventory) i =
           some (avail - pyToInt d.qty)) := by
  have hall : invNonneg ((processAll s msgs).inventory) = true := by
    induction msgs generalizing s with
    | nil => exact h
    | cons m ms ih => exact ih (on_order_placed s m).1 (invNonneg_step s m h)
  refine ⟨hall, fun i q hl => invNonneg_lookup _ i q hall hl, ?_⟩
  intro s0 m i hch
  rcases on_order_placed_state_cases s0 m with heq |
    ⟨d, avail, hm, h0, hq, hpos, hnin, hitem, hle, heq⟩
  · exact absurd (by rw [heq]) hch
  · obtain ⟨k, hk, hlk⟩ := invLookup_some_str _ _ _ hitem
    by_cases hik : k = i
    · subst hik
      refine ⟨d, avail, hm, hk, hq, hpos, hlk, hle, ?_⟩
      rw [heq, hk]
      simp only [invUpdate]
      exact lookupItem_updateItem_self _ _ _ _ hlk
    · exfalso
      apply hch
      rw [heq, hk]
      simp only [invUpdate]
      exact lookupItem_updateItem_other _ _ _ _ (fun e => hik e.symm)

/-- C3 witness: processing a decodable reservation, a duplicate, a
malformed event and an undecodable body from the initial burger ledger
keeps every quantity non-negative. -/
theorem ledger_nonnegativity_witness :
    (invNonneg [("burger", 2)] = true) ∧
    invNonneg ((processAll ⟨[("burger", 2)], []⟩
      [.decoded ⟨.pyStr "o1", .pyStr "burger", .pyInt 2⟩,
       .decoded ⟨.pyStr "o1", .pyStr "burger", .pyInt 2⟩,
       .decoded ⟨.pyStr "o2", .pyStr "burger", .pyInt 1⟩,
       .decoded ⟨.pyNone, .pyStr "burger", .pyInt 1⟩,
       .badJson "oops"]).inventory) = true :=
  ⟨by decide,
   (ledger_nonnegativity ⟨[("burger", 2)], []⟩
     [.decoded ⟨.pyStr "o1", .pyStr "burger", .pyInt 2⟩,
      .decoded ⟨.pyStr "o1", .pyStr "burger", .pyInt 2⟩,
      .decoded ⟨.pyStr "o2", .pyStr "burger", .pyInt 1⟩,
      .decoded ⟨.pyNone, .pyStr "burger", .pyInt 1⟩,
      .badJson "oops"] (by decide)).1⟩

/-- C9: processing a single incoming message changes the ledger quantity
of at most the one item named in the event: every item other than the
named one has the same quantity before and after, in both the RabbitMQ
engine and the Kafka consumer. -/
theorem per_item_frame :
    (∀ (s : EngineState) (m : InMsg) (i : String),
       namedItem m ≠ some i →
       lookupItem ((on_order_placed s m).1.inventory) i =
         lookupItem s.inventory i) ∧
    (∀ (stock : List (String × Int)) (m : KMsg) (i : String),
       kNamedItem m ≠ some i →
       lookupItem ((kafkaHandle stock m).1) i = lookupItem stock i) := by
  constructor
  · intro s m i hn
    rcases on_order_placed_state_cases s m with heq |
      ⟨d, avail, hm, h0, hq, hpos, hnin, hitem, hle, heq⟩
    · rw [heq]
    · obtain ⟨k, hk, hlk⟩ := invLookup_some_str _ _ _ hitem
      have hki : k ≠ i := by
        intro e
        apply hn
        rw [hm]
        simp [namedItem, hk, e]
      rw [heq, hk]
      simp only [invUpdate]
      exact lookupItem_updateItem_other _ _ _ _ (fun e => hki e.symm)
  · intro stock m i hn
    rcases kafkaHandle_state_cases stock m with heq |
      ⟨raw, e, oid, iid, q, qty, avail, hm, hoid, hiid, hq, hconv, hl,
        hle, heq⟩
    · rw [heq]
    · obtain ⟨k, hk, hlk⟩ := invLookup_some_str _ _ _ hl
      have hki : k ≠ i := by
        intro he
        apply hn
        rw [hm]
        simp [kNamedItem, hiid, hk, he]
      rw [heq, hk]
      simp only [invUpdate]
      exact lookupItem_updateItem_other _ _ _ _ (fun he => hki he.symm)

/-- C9 witness: a successful burger reservation leaves the pizza entry
untouched, in both variants. -/
theorem per_item_frame_witness :
    (namedItem (.decoded ⟨.pyStr "o1", .pyStr "burger", .pyInt 2⟩) ≠
       some "pizza" ∧
     lookupItem ((on_order_placed ⟨[("burger", 2), ("pizza", 5)], []⟩
        (.decoded ⟨.pyStr "o1", .pyStr "burger", .pyInt 2⟩)).1.inventory)
        "pizza" =
      lookupItem [("burger", 2), ("pizza", 5)] "pizza") ∧
    (kNamedItem (.event "r"
        ⟨.pyStr "OrderPlaced", some (.pyStr "o1"),
         some (.pyStr "burger"), some (.pyInt 2)⟩) ≠ some "pizza" ∧
     lookupItem ((kafkaHandle [("burger", 5), ("pizza", 5)]
        (.event "r"
          ⟨.pyStr "OrderPlaced", some (.pyStr "o1"),
           some (.pyStr "burger"), some (.pyInt 2)⟩)).1) "pizza" =
      lookupItem [("burger", 5), ("pizza", 5)] "pizza") :=
  ⟨⟨by decide,
    per_item_frame.1 ⟨[("burger", 2), ("pizza", 5)], []⟩
      (.decoded ⟨.pyStr "o1", .pyStr "burger", .pyInt 2⟩) "pizza"
      (by decide)⟩,
   ⟨by decide,
    per_item_frame.2 [("burger", 5), ("pizza", 5)]
      (.event "r"
        ⟨.pyStr "OrderPlaced", some (.pyStr "o1"),
         some (.pyStr "burger"), some (.pyInt 2)⟩) "pizza"
      (by decide)⟩⟩

/-- C8: on every processing path (decode failure, validation failure,
unknown item, insufficient stock, successful reservation) the inbound
message is acknowledged exactly once, as the last action, after the
publish attempt or DLQ routing; the publish list is empty only on the
duplicate-suppression path.  Likewise in the Kafka consumer, where the
commit is always preceded by a produce. -/
theorem ack_only_after_publish :
    (∀ (s : EngineState) (msg : InMsg),
       ∃ pre, (on_order_placed s msg).2 = pre ++ [Action.ack] ∧
         Action.ack ∉ pre ∧
         (isDuplicateDelivery s msg = false → pre ≠ [])) ∧
    (∀ (stock : List (String × Int)) (msg : KMsg),
       ∃ pre, (kafkaHandle stock msg).2 = pre ++ [KAction.commit] ∧
         KAction.commit ∉ pre ∧ pre ≠ []) := by
  constructor
  · intro s msg
    obtain ⟨pre, h1, h2, h3⟩ := on_order_placed_actions_shape s msg
    refine ⟨pre, h1, h2, fun hnd hpre => ?_⟩
    rw [h3 hpre] at hnd
    cases hnd
  · intro stock msg
    obtain ⟨x, h1, h2⟩ := kafkaHandle_actions_shape stock msg
    exact ⟨[x], by simpa using h1, by simpa using fun e => h2 e.symm,
      by simp⟩

/-- C8 witness: instantiation on a successful reservation and on a Kafka
poison message. -/
theorem ack_only_after_publish_witness :
    (∃ pre, (on_order_placed ⟨[("burger", 2)], []⟩
        (.decoded ⟨.pyStr "o1", .pyStr "burger", .pyInt 2⟩)).2 =
        pre ++ [Action.ack] ∧ Action.ack ∉ pre ∧
      (isDuplicateDelivery ⟨[("burger", 2)], []⟩
          (.decoded ⟨.pyStr "o1", .pyStr "burger", .pyInt 2⟩) = false →
        pre ≠ [])) ∧
    (∃ pre, (kafkaHandle [("burger", 5)] (.badJson "oops" "err")).2 =
        pre ++ [KAction.commit] ∧ KAction.commit ∉ pre ∧ pre ≠ []) :=
  ⟨ack_only_after_publish.1 ⟨[("burger", 2)], []⟩
     (.decoded ⟨.pyStr "o1", .pyStr "burger", .pyInt 2⟩),
   ack_only_after_publish.2 [("burger", 5)] (.badJson "oops" "err")⟩

/-- C10: the front door rejects with 400 exactly when item is falsy
(missing or empty) or qty is absent — the qty value itself is never
inspected — and any accepted order whose present qty fails the engine
positive-integer check (zero, negative, or not an int) is answered 201
with status PLACED, published downstream, and there dead-lettered by the
Reservation Engine qty validation. -/
theorem front_door_presence_only :
    (∀ (oid : String) (req : OrderRequest),
       (place_order oid req).1 = 400 ↔
         (truthy req.item = false ∨ req.qty = PyVal.pyNone)) ∧
    (∀ (oid : String) (req : OrderRequest) (s : EngineState),
       truthy req.item = true → req.qty ≠ PyVal.pyNone →
       (¬ isInstInt req.qty ∨ pyToInt req.qty ≤ 0) → oid ≠ "" →
       ∃ o, place_order oid req = (201, some o) ∧ o.status = "PLACED" ∧
         o.qty = req.qty ∧
         on_order_placed s (.decoded (toOrderMsg o)) =
           (s, [.publishDLQ (.withError (toOrderMsg o)
                 ("Invalid qty: " ++ pyRender req.qty ++
                   " (must be a positive integer)")), .ack])) := by
  constructor
  · intro oid req
    unfold place_order
    by_cases hq : req.qty = PyVal.pyNone
    · cases hti : truthy req.item
      · rw [if_pos (Or.inl (by simp [hti]))]
        simp [hq]
      · rw [if_pos (Or.inr hq)]
        simp [hq]
    · cases hti : truthy req.item
      · rw [if_pos (Or.inl (by simp [hti]))]
        simp [hti]
      · rw [if_neg (by simp [hti, hq])]
        simp [hti, hq]
  · intro oid req s hitem hqty hbad hoid
    have hacc : ¬ (¬ truthy req.item ∨ req.qty = PyVal.pyNone) := by
      push_neg
      exact ⟨by simp [hitem], hqty⟩
    have htr : truthy (PyVal.pyStr oid) = true := by
      simp [truthy, hoid]
    refine ⟨{ order_id := oid, item := req.item, qty := req.qty,
              student_id := if req.student_id = PyVal.pyNone
                then PyVal.pyStr "unknown" else req.student_id,
              status := "PLACED" }, ?_, rfl, rfl, ?_⟩
    · unfold place_order
      rw [if_neg hacc]
    · have h0 : missingFields
          (toOrderMsg
            { order_id := oid, item := req.item, qty := req.qty,
              student_id := if req.student_id = PyVal.pyNone
                then PyVal.pyStr "unknown" else req.student_id,
              status := "PLACED" }) = [] := by
        simp [missingFields, toOrderMsg, htr, hitem, hqty]
      exact on_order_placed_badqty s _ h0 hbad

/-- C10 witness: qty 0 for burger passes the front door with 201 and
status PLACED and is dead-lettered downstream with the Invalid-qty
error; and 400 occurs exactly when item is falsy or qty absent. -/
theorem front_door_presence_only_witness :
    ((place_order "u1" ⟨.pyStr "burger", .pyNone, .pyNone⟩).1 = 400 ↔
      (truthy (PyVal.pyStr "burger") = false ∨
        (PyVal.pyNone : PyVal) = PyVal.pyNone)) ∧
    (truthy (PyVal.pyStr "burger") = true ∧
      (PyVal.pyInt 0 : PyVal) ≠ PyVal.pyNone ∧
      (¬ isInstInt (PyVal.pyInt 0) ∨ pyToInt (PyVal.pyInt 0) ≤ 0) ∧
      ("u1" : String) ≠ "") ∧
    (∃ o, place_order "u1" ⟨.pyStr "burger", .pyInt 0, .pyNone⟩ =
        (201, some o) ∧ o.status = "PLACED" ∧
      o.qty = PyVal.pyInt 0 ∧
      on_order_placed ⟨[("burger", 100)], []⟩ (.decoded (toOrderMsg o)) =
        (⟨[("burger", 100)], []⟩,
         [.publishDLQ (.withError (toOrderMsg o)
            ("Invalid qty: " ++ pyRender (PyVal.pyInt 0) ++
              " (must be a positive integer)")), .ack])) :=
  ⟨front_door_presence_only.1 "u1" ⟨.pyStr "burger", .pyNone, .pyNone⟩,
   ⟨by decide, by decide, Or.inr (by decide), by decide⟩,
   front_door_presence_only.2 "u1" ⟨.pyStr "burger", .pyInt 0, .pyNone⟩
     ⟨[("burger", 100)], []⟩ (by decide) (by decide) (Or.inr (by decide))
     (by decide)⟩

end CommModels
